import Mathlib

/-!
# Verification of `FilterResampler` (OvenMediaEngine transcoder audio resampling stage)

Shallow embedding of `src/projects/transcoder/filter/filter_resampler.cpp`.

The stage wraps an FFmpeg audio filter graph.  Its own logic — the part
embedded here — is:

* `Configure(input_track, output_track)` (lines 45–149): builds and
  validates the filter graph, with early `return false` on each failure;
* `Start` / `Stop` / destructor (lines 151–184, 31–43): lifecycle;
* `FilterThread` (lines 186–247): the worker loop that dequeues input
  frames, feeds them to the graph and drains produced output frames to the
  registered completion handler;
* `SendBuffer` (lines 249–254): the producer-side enqueue.

Calls into FFmpeg (`avfilter_graph_alloc`, `av_buffersrc_add_frame_flags`,
`av_buffersink_get_frame`, …) and the frame converters
(`ffmpeg::Conv::ToAVFrame` / `ToMediaFrame`) are external collaborators;
their outcomes are supplied as explicit environment data, and the embedding
reproduces exactly how the stage's control flow reacts to each outcome.
-/

/-- An FFmpeg rational (`AVRational`): numerator and denominator, both C
`int`s.  `ffmpeg::Conv::TimebaseToAVRational` maps a track's timebase to
this representation. -/
structure AVRational where
  num : Int
  den : Int
deriving DecidableEq, Repr

/-- Numerator of `av_div_q(input_timebase, output_timebase)` before
reduction: `av_div_q(b, c) = av_mul_q(b, {c.den, c.num})`, whose numerator
is `b.num * c.den`. -/
def scaleNum (i o : AVRational) : Int := i.num * o.den

/-- Denominator of `av_div_q(input_timebase, output_timebase)` before
reduction: `b.den * c.num`. -/
def scaleDen (i o : AVRational) : Int := i.den * o.num

/-- `::isnan(::av_q2d(::av_div_q(i, o)))`, the validation predicate of
`Configure` (line 70).  `av_reduce` preserves a zero denominator (the
gcd-reduction sends `n/0` to `1/0` for `n ≠ 0` and leaves `0/0` as `0/0`),
and `av_q2d` computes `num / (double)den`, which is NaN exactly when both
are zero (a nonzero numerator over zero gives ±infinity, for which `isnan`
is false; with 32-bit components no finite quotient overflows to
infinity).  Hence the double `_scale` is NaN iff both cross products
vanish. -/
def scaleIsNaN (i o : AVRational) : Bool :=
  scaleNum i o == 0 && scaleDen i o == 0

/-- Spec-side predicate, from the spec's words ("the timebase scale factor
between them is a well-defined finite number"): the quotient
`i / o` is a well-defined finite real, i.e. its denominator cross product
is nonzero.  Kept separate from `scaleIsNaN` so the two can be compared:
the code's check is weaker (it accepts an infinite scale). -/
def specScaleWellDefinedFinite (i o : AVRational) : Prop :=
  scaleDen i o ≠ 0

instance (i o : AVRational) : Decidable (specScaleWellDefinedFinite i o) := by
  unfold specScaleWellDefinedFinite; infer_instance

/-- The fields of a `MediaTrack` descriptor that `Configure` reads.  The
sample-format and channel-layout names are only interpolated into filter
argument strings and never branch the control flow; they are carried as
numeric codes. -/
structure MediaTrack where
  timebase : AVRational
  sample_rate : Int
  sample_fmt : Int
  channel_layout : Int
  samples_per_frame : Int
  track_id : Nat
deriving DecidableEq, Repr

/-- Outcomes of the external FFmpeg calls made by `Configure`, in program
order.  Each field corresponds to one call site in lines 54–144. -/
structure ConfigureEnv where
  /-- `avfilter_graph_alloc()` (line 54) returned non-null. -/
  graph_alloc_ok : Bool
  /-- `_inputs` from `avfilter_inout_alloc()` in the constructor (line 21)
  is non-null. -/
  inputs_ok : Bool
  /-- `_outputs` from `avfilter_inout_alloc()` in the constructor
  (line 20) is non-null. -/
  outputs_ok : Bool
  /-- return of `avfilter_graph_create_filter` for the `abuffer` source
  (line 93). -/
  buffersrc_ret : Int
  /-- return of `avfilter_graph_create_filter` for the `abuffersink` sink
  (line 110). -/
  buffersink_ret : Int
  /-- `av_strdup("in")` for `_outputs->name` (line 117) returned
  non-null. -/
  strdup_outputs_name_ok : Bool
  /-- `av_strdup("out")` for `_inputs->name` (line 122) returned
  non-null. -/
  strdup_inputs_name_ok : Bool
  /-- return of `avfilter_graph_parse_ptr` (line 132). -/
  parse_ret : Int
  /-- return of `avfilter_graph_config` (line 139). -/
  config_ret : Int
deriving DecidableEq, Repr

/-- How a call to `Configure` ends.  `nullDeref` is the undefined-behavior
outcome of dereferencing a null `shared_ptr<MediaTrack>` (there is no null
check in the source; `input_track->GetTimeBase()` at line 65 and
`output_track->GetTimeBase()` at line 66 are the first field reads). -/
inductive ConfigureOutcome where
  | ok
  | fail
  | nullDeref
deriving DecidableEq, Repr

/-- Observable trace of one `Configure` call: its outcome, whether
`_filter_graph` was allocated (line 54), whether `Configure` freed it
before returning (the source has no `avfilter_graph_free` call inside
`Configure`, so this is false on every path), and whether the success
summary was logged (`logti`, line 146). -/
structure ConfigureTrace where
  outcome : ConfigureOutcome
  graph_allocated : Bool
  graph_freed_before_return : Bool
  logged_summary : Bool
deriving DecidableEq, Repr

/-- `FilterResampler::Configure` (lines 45–149), step by step:

1. store the two descriptors (lines 47–48, no dereference);
2. `_filter_graph = avfilter_graph_alloc()` (line 54);
3. null check of `_filter_graph`, `_inputs`, `_outputs` (line 56):
   `return false` if any is null;
4. read both timebases (lines 65–66) — the first dereference of the
   descriptors, with no preceding null check;
5. `_scale = av_q2d(av_div_q(...))`; `return false` if `isnan(_scale)`
   (lines 68–77);
6. create the `abuffer` source filter; `return false` on negative return
   (lines 93–98);
7. create the `abuffersink` sink filter; `return false` on negative
   return (lines 110–115);
8. `av_strdup` the inout names; `return false` if either is null
   (lines 117–130);
9. `avfilter_graph_parse_ptr`; `return false` on negative return
   (lines 132–137);
10. `avfilter_graph_config`; `return false` on negative return
    (lines 139–144);
11. log the summary and `return true` (lines 146–148).

No failure path frees `_filter_graph` or the contexts inside it; they stay
in the member pointers until the destructor runs. -/
def Configure (env : ConfigureEnv) (input_track output_track : Option MediaTrack) :
    ConfigureTrace :=
  let g := env.graph_alloc_ok
  if ¬(g && env.inputs_ok && env.outputs_ok) then
    { outcome := .fail, graph_allocated := g,
      graph_freed_before_return := false, logged_summary := false }
  else
    match input_track, output_track with
    | some it, some ot =>
        if scaleIsNaN it.timebase ot.timebase then
          { outcome := .fail, graph_allocated := true,
            graph_freed_before_return := false, logged_summary := false }
        else if env.buffersrc_ret < 0 then
          { outcome := .fail, graph_allocated := true,
            graph_freed_before_return := false, logged_summary := false }
        else if env.buffersink_ret < 0 then
          { outcome := .fail, graph_allocated := true,
            graph_freed_before_return := false, logged_summary := false }
        else if ¬(env.strdup_outputs_name_ok && env.strdup_inputs_name_ok) then
          { outcome := .fail, graph_allocated := true,
            graph_freed_before_return := false, logged_summary := false }
        else if env.parse_ret < 0 then
          { outcome := .fail, graph_allocated := true,
            graph_freed_before_return := false, logged_summary := false }
        else if env.config_ret < 0 then
          { outcome := .fail, graph_allocated := true,
            graph_freed_before_return := false, logged_summary := false }
        else
          { outcome := .ok, graph_allocated := true,
            graph_freed_before_return := false, logged_summary := true }
    | _, _ =>
        { outcome := .nullDeref, graph_allocated := true,
          graph_freed_before_return := false, logged_summary := false }

/-- An environment in which every external FFmpeg call succeeds. -/
def allOkEnv : ConfigureEnv :=
  { graph_alloc_ok := true, inputs_ok := true, outputs_ok := true,
    buffersrc_ret := 0, buffersink_ret := 0,
    strdup_outputs_name_ok := true, strdup_inputs_name_ok := true,
    parse_ret := 0, config_ret := 0 }

/-- A concrete audio track descriptor with timebase 1/48000. -/
def track48k : MediaTrack :=
  { timebase := ⟨1, 48000⟩, sample_rate := 48000, sample_fmt := 8,
    channel_layout := 3, samples_per_frame := 960, track_id := 1 }

/-- A track descriptor whose timebase is the zero rational 0/1 — the
input/output quotient against a normal timebase is then ±infinity. -/
def trackZeroTb : MediaTrack :=
  { timebase := ⟨0, 1⟩, sample_rate := 48000, sample_fmt := 8,
    channel_layout := 3, samples_per_frame := 960, track_id := 2 }

example : (Configure allOkEnv (some track48k) (some trackZeroTb)).outcome
    = ConfigureOutcome.ok := by decide

example : (Configure allOkEnv none (some track48k)).outcome
    = ConfigureOutcome.nullDeref := by decide

/-! ## Frames, the input queue, `SendBuffer`, `Stop` -/

/-- The fields of a `MediaFrame` that the stage observes: the presentation
timestamp (in the input track's timebase) and the buffer length.  The
sample payload itself is never inspected by the stage. -/
structure MediaFrame where
  pts : Int
  buf_len : Nat
deriving DecidableEq, Repr

/-- `_input_buffer`, an `ov::Queue<std::shared_ptr<MediaFrame>>`.  The
queue class lives in `base/ovlibrary`, outside the sources at hand; its
contract is taken from the spec (§4.1). -/
structure InputBuffer where
  items : List MediaFrame
  stopped : Bool
  threshold : Nat
deriving DecidableEq, Repr

/-- Modelled from the spec: `ov::Queue::Enqueue` (in `base/ovlibrary`, not
under the sources at hand) "appends a frame for processing and never
blocks the caller (frame ownership transfers immediately)"; the capacity
threshold "is a soft alias/threshold used for monitoring … crossing it
does not drop frames"; and the component "cannot itself fail".  So an
enqueue appends unconditionally, whatever the depth or stopped state. -/
def InputBuffer.enqueue (q : InputBuffer) (f : MediaFrame) : InputBuffer :=
  { q with items := q.items ++ [f] }

/-- Modelled from the spec: `ov::Queue::Dequeue` "blocks the worker until
a frame is available or the queue is stopped, returning either a frame or
an empty/'no value' result on stop", and after `Stop` "all subsequent
dequeues … return empty".  Blocking is abstracted: an empty live queue
also yields `none` (the worker's `continue` on `has_value() == false`
makes the two indistinguishable to the loop). -/
def InputBuffer.dequeue (q : InputBuffer) : Option MediaFrame × InputBuffer :=
  if q.stopped then (none, q)
  else
    match q.items with
    | [] => (none, q)
    | f :: rest => (some f, { q with items := rest })

/-- Modelled from the spec: `ov::Queue::Stop` "unblocks any pending
`Dequeue` permanently and causes all subsequent dequeues to return
empty". -/
def InputBuffer.stop (q : InputBuffer) : InputBuffer :=
  { q with stopped := true }

/-- The queue as the constructor leaves it (lines 23–24):
`SetThreshold(100)`, empty, running. -/
def initialInputBuffer : InputBuffer :=
  { items := [], stopped := false, threshold := 100 }

/-- The lifecycle state `SendBuffer` and `Stop` touch: the input queue and
the kill flag. -/
structure StageState where
  input_buffer : InputBuffer
  kill_flag : Bool
deriving DecidableEq, Repr

/-- `FilterResampler::SendBuffer` (lines 249–254): enqueue the frame and
`return 0`.  There is no branch: no check of configuration, start/stop
state, or queue depth. -/
def SendBuffer (s : StageState) (buffer : MediaFrame) : StageState × Int :=
  ({ s with input_buffer := s.input_buffer.enqueue buffer }, 0)

/-- `FilterResampler::Stop` (lines 173–184): set `_kill_flag`, stop the
queue, join the worker thread (joining has no effect on this state). -/
def Stop (s : StageState) : StageState :=
  { s with kill_flag := true, input_buffer := s.input_buffer.stop }

/-! ## The worker loop `FilterThread` -/

/-- `AV_NOPTS_VALUE` (`INT64_MIN`). -/
def AV_NOPTS_VALUE : Int := -9223372036854775808

/-- The `AVFrame` fields that the stage reads from its scratch frame
`_frame` — exactly the ones interpolated into the feed-failure log at
line 208. -/
structure AVFrameFields where
  pts : Int
  linesize0 : Int
  sample_rate : Int
  channel_layout : Int
  channels : Int
  format : Int
deriving DecidableEq, Repr

/-- The state `av_frame_alloc` (line 18) and `av_frame_unref` (line 233)
leave `_frame` in: `pts = AV_NOPTS_VALUE`, `format = -1`, everything else
zero (`av_frame_unref` resets the frame to the same defaults
`av_frame_alloc` starts from). -/
def avFrameDefaults : AVFrameFields :=
  { pts := AV_NOPTS_VALUE, linesize0 := 0, sample_rate := 0,
    channel_layout := 0, channels := 0, format := -1 }

/-- How the inner drain loop's sequence of `av_buffersink_get_frame`
calls ends (lines 216–229): `EAGAIN` (retry later), `AVERROR_EOF`, or any
other negative return. -/
inductive DrainEnd where
  | eagain
  | eof
  | err (code : Int)
deriving DecidableEq, Repr

/-- Log records the worker emits (`logte` calls in lines 198–244).
`feedFail` carries what line 208 actually interpolates: the fields of the
member scratch frame `_frame` (NOT of the `av_frame` that was fed) plus
`_input_buffer.Size()`. -/
inductive LogEvent where
  | inputConvFail
  | feedFail (scratch : AVFrameFields) (queue_size : Nat)
  | drainEOF
  | drainErr (code : Int)
  | outputConvFail
deriving DecidableEq, Repr

/-- What became of one enqueued frame: fed to the filter graph, dequeued
but discarded with a logged error (input-conversion or feed failure), or
still in the queue when it was cleared at destruction (line 42), without
any log. -/
inductive Fate where
  | fed
  | discardedLogged
  | clearedSilently
deriving DecidableEq, Repr

/-- Outcomes of the external calls made while processing one dequeued
frame. -/
structure FrameEnv where
  /-- `ffmpeg::Conv::ToAVFrame` (line 198) returned non-null. -/
  conv_ok : Bool
  /-- return of `av_buffersrc_add_frame_flags` (line 205). -/
  feed_ret : Int
  /-- `_input_buffer.Size()` as observed by the feed-failure log. -/
  queue_size : Nat
  /-- successful `av_buffersink_get_frame` results, in order: the fields
  written into `_frame`, and the `ffmpeg::Conv::ToMediaFrame` result
  (`some` output frame, or `none` when conversion returned null). -/
  produced : List (AVFrameFields × Option MediaFrame)
  /-- the first non-success `av_buffersink_get_frame` return, which ends
  the inner loop. -/
  ending : DrainEnd
deriving DecidableEq, Repr

/-- The inner drain loop (lines 212–245) for one fed frame, given whether
a completion handler is registered (`_complete_handler`, line 240).  For
each successful `av_buffersink_get_frame`: convert to a `MediaFrame`,
`av_frame_unref` the scratch frame, on conversion failure log and
`continue` draining, otherwise invoke the handler.  The loop `break`s on
`EAGAIN` silently, and on `AVERROR_EOF` or another negative return with a
log.  Returns the frames delivered to the handler (in delivery order) and
the log records (in emission order). -/
def drainLoop (handler : Bool) :
    List (AVFrameFields × Option MediaFrame) → DrainEnd →
    List MediaFrame × List LogEvent
  | [], ending =>
    ([],
      match ending with
      | .eagain => []
      | .eof => [.drainEOF]
      | .err code => [.drainErr code])
  | (_, conv) :: rest, ending =>
    let r := drainLoop handler rest ending
    match conv with
    | none => (r.1, .outputConvFail :: r.2)
    | some f => (if handler then f :: r.1 else r.1, r.2)

/-- State of the scratch frame `_frame` after the drain loop: each
successful `av_buffersink_get_frame` overwrites it and the following
`av_frame_unref` (line 233) resets it to defaults; the loop-ending call
(`EAGAIN`/`EOF`/error) does not write into it. -/
def drainScratch (scratch : AVFrameFields)
    (produced : List (AVFrameFields × Option MediaFrame)) : AVFrameFields :=
  if produced.isEmpty then scratch else avFrameDefaults

/-- Cumulative observations of one `FilterThread` run: the frames
delivered to the completion handler, each tagged with the index of the
input frame it came from; the logs; the fate of each *dequeued* frame, in
dequeue order; and the final state of the scratch frame `_frame`. -/
structure ThreadRun where
  delivered : List (Nat × MediaFrame)
  logs : List LogEvent
  fates : List Fate
  scratch : AVFrameFields
deriving DecidableEq, Repr

/-- `FilterResampler::FilterThread` (lines 186–247), on the sequence of
frames the worker dequeues (each paired with the outcomes of the external
calls made for it), starting with scratch-frame state `scratch` and input
index `i`:

* `ToAVFrame` failure (lines 198–203): log and `break` — the thread
  exits; no later frame is dequeued;
* feed failure (`av_buffersrc_add_frame_flags < 0`, lines 205–210): log
  `_frame`'s fields and the queue size, `continue` with the next frame;
* otherwise: run the inner drain loop to exhaustion, then dequeue the
  next frame. -/
def FilterThread (handler : Bool) (scratch : AVFrameFields) (i : Nat) :
    List (MediaFrame × FrameEnv) → ThreadRun
  | [] => { delivered := [], logs := [], fates := [], scratch := scratch }
  | (_, e) :: rest =>
    if e.conv_ok = false then
      { delivered := [], logs := [.inputConvFail],
        fates := [.discardedLogged], scratch := scratch }
    else if e.feed_ret < 0 then
      let r := FilterThread handler scratch (i + 1) rest
      { delivered := r.delivered,
        logs := .feedFail scratch e.queue_size :: r.logs,
        fates := .discardedLogged :: r.fates, scratch := r.scratch }
    else
      let dl := drainLoop handler e.produced e.ending
      let r := FilterThread handler (drainScratch scratch e.produced) (i + 1) rest
      { delivered := dl.1.map (fun f => (i, f)) ++ r.delivered,
        logs := dl.2 ++ r.logs,
        fates := .fed :: r.fates, scratch := r.scratch }

/-- One whole execution of the stage, as far as frame accounting goes:
`frames` were enqueued in order; the worker dequeued the first `k` of
them before `Stop` stopped the queue (every later dequeue returns empty
and the kill flag ends the loop); at destruction `_input_buffer.Clear()`
(line 42) drops whatever the worker never dequeued — the frames beyond
`k`, and, when the worker hit a fatal input-conversion failure and broke
out early, the frames it never reached — with no log.  Result: the fate
of each enqueued frame, in enqueue order. -/
def stageFates (handler : Bool) (frames : List (MediaFrame × FrameEnv)) (k : Nat) :
    List Fate :=
  let r := FilterThread handler avFrameDefaults 0 (frames.take k)
  r.fates ++ List.replicate (frames.length - r.fates.length) .clearedSilently

example :
    (FilterThread true avFrameDefaults 0
      [(⟨100, 4096⟩, { conv_ok := true, feed_ret := 0, queue_size := 0,
                       produced := [(avFrameDefaults, some ⟨7, 3840⟩),
                                    (avFrameDefaults, some ⟨17, 3840⟩)],
                       ending := .eagain })]).delivered
    = [(0, ⟨7, 3840⟩), (0, ⟨17, 3840⟩)] := by decide

example :
    stageFates true
      [(⟨100, 4096⟩, { conv_ok := true, feed_ret := 0, queue_size := 0,
                       produced := [], ending := .eagain })] 0
    = [.clearedSilently] := by decide

/-- A frame environment in which conversion and feeding succeed and the
drain immediately reports `EAGAIN` (no output ready yet). -/
def simpleFeedEnv : FrameEnv :=
  { conv_ok := true, feed_ret := 0, queue_size := 0, produced := [],
    ending := .eagain }

/-- A frame environment in which `ffmpeg::Conv::ToAVFrame` fails. -/
def convFailEnv : FrameEnv :=
  { conv_ok := false, feed_ret := 0, queue_size := 0, produced := [],
    ending := .eagain }

/-- A frame environment in which `av_buffersrc_add_frame_flags` fails
with `-22` (`AVERROR(EINVAL)`) while five frames sit in the queue. -/
def feedFailEnv : FrameEnv :=
  { conv_ok := true, feed_ret := -22, queue_size := 5, produced := [],
    ending := .eagain }

/-! ## Helper lemmas about the worker loop -/

/-- A drain over `n` successfully converted sink frames delivers exactly
`n` frames to a registered handler. -/
lemma drainLoop_replicate_length (n : Nat) (f : MediaFrame) :
    ((drainLoop true (List.replicate n (avFrameDefaults, some f))
      DrainEnd.eagain).1).length = n := by
  induction n with
  | zero => simp [drainLoop]
  | succ m ih => simp [List.replicate_succ, drainLoop, ih]

/-- Every frame delivered by a worker run that starts at input index `i`
carries a tag `≥ i`. -/
lemma FilterThread_delivered_tag_ge (handler : Bool)
    (frames : List (MediaFrame × FrameEnv)) :
    ∀ (scratch : AVFrameFields) (i : Nat) (p : Nat × MediaFrame),
      p ∈ (FilterThread handler scratch i frames).delivered → i ≤ p.1 := by
  induction frames with
  | nil => intro scratch i p h; simp [FilterThread] at h
  | cons fe rest ih =>
    intro scratch i p h
    obtain ⟨f, e⟩ := fe
    by_cases hc : e.conv_ok = false
    · simp [FilterThread, hc] at h
    · by_cases hf : e.feed_ret < 0
      · simp [FilterThread, hc, hf] at h
        exact Nat.le_of_succ_le (ih _ _ p h)
      · simp [FilterThread, hc, hf] at h
        rcases h with ⟨a, _, rfl⟩ | h
        · exact Nat.le_refl i
        · exact Nat.le_of_succ_le (ih _ _ p h)

/-- Unfolding equation of `FilterThread` for a frame whose input
conversion fails. -/
lemma FilterThread_cons_convFail (handler : Bool) (scratch : AVFrameFields)
    (i : Nat) (f : MediaFrame) (e : FrameEnv)
    (rest : List (MediaFrame × FrameEnv)) (hc : e.conv_ok = false) :
    FilterThread handler scratch i ((f, e) :: rest) =
      { delivered := [], logs := [LogEvent.inputConvFail],
        fates := [Fate.discardedLogged], scratch := scratch } := by
  simp [FilterThread, hc]

/-- Unfolding equation of `FilterThread` for a frame whose feed into the
graph fails. -/
lemma FilterThread_cons_feedFail (handler : Bool) (scratch : AVFrameFields)
    (i : Nat) (f : MediaFrame) (e : FrameEnv)
    (rest : List (MediaFrame × FrameEnv))
    (hc : e.conv_ok = true) (hf : e.feed_ret < 0) :
    FilterThread handler scratch i ((f, e) :: rest) =
      { delivered := (FilterThread handler scratch (i + 1) rest).delivered,
        logs := LogEvent.feedFail scratch e.queue_size ::
          (FilterThread handler scratch (i + 1) rest).logs,
        fates := Fate.discardedLogged ::
          (FilterThread handler scratch (i + 1) rest).fates,
        scratch := (FilterThread handler scratch (i + 1) rest).scratch } := by
  simp [FilterThread, hc, hf]

/-- Unfolding equation of `FilterThread` for a frame that is fed
successfully and then drained. -/
lemma FilterThread_cons_fed (handler : Bool) (scratch : AVFrameFields)
    (i : Nat) (f : MediaFrame) (e : FrameEnv)
    (rest : List (MediaFrame × FrameEnv))
    (hc : e.conv_ok = true) (hf : ¬e.feed_ret < 0) :
    FilterThread handler scratch i ((f, e) :: rest) =
      { delivered :=
          ((drainLoop handler e.produced e.ending).1).map (fun out => (i, out)) ++
            (FilterThread handler (drainScratch scratch e.produced)
              (i + 1) rest).delivered,
        logs := (drainLoop handler e.produced e.ending).2 ++
          (FilterThread handler (drainScratch scratch e.produced) (i + 1) rest).logs,
        fates := Fate.fed ::
          (FilterThread handler (drainScratch scratch e.produced) (i + 1) rest).fates,
        scratch :=
          (FilterThread handler (drainScratch scratch e.produced)
            (i + 1) rest).scratch } := by
  simp [FilterThread, hc, hf]

/-! ## C1 — drain to exhaustion before the next input frame -/

/-- C1: when a dequeued frame converts and feeds successfully, the worker
first runs the inner drain loop to exhaustion — every frame that drain
delivers to the handler (tagged with this input's index) precedes
everything produced for later inputs — and only then processes the rest
of the queue; and a single input frame may yield any number 0, 1, 2, … of
delivered output frames. -/
theorem FilterThread_feeds_then_drains_before_next (handler : Bool)
    (scratch : AVFrameFields) (i : Nat) (f : MediaFrame) (e : FrameEnv)
    (rest : List (MediaFrame × FrameEnv))
    (hconv : e.conv_ok = true) (hfeed : 0 ≤ e.feed_ret) :
    (FilterThread handler scratch i ((f, e) :: rest)).delivered =
      ((drainLoop handler e.produced e.ending).1).map (fun out => (i, out)) ++
        (FilterThread handler (drainScratch scratch e.produced)
          (i + 1) rest).delivered ∧
    ∀ n : Nat, ∃ e2 : FrameEnv,
      ((drainLoop true e2.produced e2.ending).1).length = n := by
  constructor
  · rw [FilterThread_cons_fed handler scratch i f e rest hconv (not_lt.mpr hfeed)]
  · intro n
    exact ⟨{ conv_ok := true, feed_ret := 0, queue_size := 0,
             produced := List.replicate n (avFrameDefaults, some ⟨0, 0⟩),
             ending := .eagain },
           drainLoop_replicate_length n ⟨0, 0⟩⟩

/-- Witness for C1 at a concrete input: one frame with a successful feed
whose drain immediately returns `EAGAIN`. -/
theorem FilterThread_feeds_then_drains_before_next_witness :
    simpleFeedEnv.conv_ok = true ∧ (0 : Int) ≤ simpleFeedEnv.feed_ret ∧
    ((FilterThread true avFrameDefaults 0 [(⟨100, 4096⟩, simpleFeedEnv)]).delivered =
      ((drainLoop true simpleFeedEnv.produced simpleFeedEnv.ending).1).map
        (fun out => (0, out)) ++
        (FilterThread true (drainScratch avFrameDefaults simpleFeedEnv.produced)
          (0 + 1) []).delivered ∧
     ∀ n : Nat, ∃ e2 : FrameEnv,
       ((drainLoop true e2.produced e2.ending).1).length = n) :=
  ⟨by decide, by decide,
   FilterThread_feeds_then_drains_before_next true avFrameDefaults 0
     ⟨100, 4096⟩ simpleFeedEnv [] (by decide) (by decide)⟩

/-! ## C2 — no reordering across input frames -/

/-- C2: in any worker run, the delivered output frames appear in an order
consistent with the order of their input frames: the input-frame indices
tagged onto the delivery sequence are non-decreasing, so no output of a
later input frame is delivered before an output of an earlier one. -/
theorem FilterThread_no_cross_input_reordering (handler : Bool)
    (scratch : AVFrameFields) (i : Nat)
    (frames : List (MediaFrame × FrameEnv)) :
    List.Pairwise (fun p q => p.1 ≤ q.1)
      (FilterThread handler scratch i frames).delivered := by
  induction frames generalizing scratch i with
  | nil => simp [FilterThread]
  | cons fe rest ih =>
    obtain ⟨f, e⟩ := fe
    by_cases hc : e.conv_ok = true
    · by_cases hf : e.feed_ret < 0
      · rw [FilterThread_cons_feedFail handler scratch i f e rest hc hf]
        exact ih _ _
      · rw [FilterThread_cons_fed handler scratch i f e rest hc hf]
        rw [List.pairwise_append]
        refine ⟨?_, ih _ _, ?_⟩
        · rw [List.pairwise_map]
          induction (drainLoop handler e.produced e.ending).1 with
          | nil => exact List.Pairwise.nil
          | cons x xs ihx =>
            exact List.Pairwise.cons (fun b _ => Nat.le_refl i) ihx
        · intro a ha b hb
          rw [List.mem_map] at ha
          obtain ⟨x, _, rfl⟩ := ha
          exact Nat.le_of_succ_le
            (FilterThread_delivered_tag_ge handler rest _ (i + 1) b hb)
    · have hc2 : e.conv_ok = false := by
        cases h : e.conv_ok
        · rfl
        · exact absurd h hc
      rw [FilterThread_cons_convFail handler scratch i f e rest hc2]
      simp

/-! ## C7 — input conversion failure is fatal -/

/-- C7: when `ffmpeg::Conv::ToAVFrame` fails for a dequeued frame, the
worker logs the failure and breaks out of its loop: nothing is delivered,
the only log is the conversion-failure record, and no later frame in the
queue is dequeued or processed (the run's per-frame accounting ends with
this frame). -/
theorem FilterThread_input_conv_failure_fatal (handler : Bool)
    (scratch : AVFrameFields) (i : Nat) (f : MediaFrame) (e : FrameEnv)
    (rest : List (MediaFrame × FrameEnv)) (hconv : e.conv_ok = false) :
    FilterThread handler scratch i ((f, e) :: rest) =
      { delivered := [], logs := [LogEvent.inputConvFail],
        fates := [Fate.discardedLogged], scratch := scratch } := by
  simp [FilterThread, hconv]

/-! ## The destructor's resource release -/

/-- Native resources held by the stage, plus the queue contents — the
things `~FilterResampler` (lines 31–43) releases. -/
structure ResourceState where
  frame_allocated : Bool
  inputs_allocated : Bool
  outputs_allocated : Bool
  graph_allocated : Bool
  queued_frames : Nat
deriving DecidableEq, Repr

/-- `FilterResampler::~FilterResampler` (lines 31–43): after `Stop()`, free
`_frame`, `_inputs`, `_outputs` and `_filter_graph` (each `OV_SAFE_FUNC`
nulls the pointer after freeing), then `_input_buffer.Clear()` drops every
frame still queued — with no log. -/
def destructorRelease (_ : ResourceState) : ResourceState :=
  { frame_allocated := false, inputs_allocated := false,
    outputs_allocated := false, graph_allocated := false,
    queued_frames := 0 }

/-! ## Helper lemmas about `Configure` -/

/-- A boolean that is not `true` is `false`. -/
lemma bool_ne_true {b : Bool} (h : ¬b = true) : b = false := by
  cases b
  · rfl
  · exact absurd rfl h

/-- `Configure` frees nothing before returning, on any path: the source
contains no release call between line 45 and each `return`. -/
lemma Configure_never_frees (env : ConfigureEnv) (i o : Option MediaTrack) :
    (Configure env i o).graph_freed_before_return = false := by
  simp only [Configure]
  (repeat' split) <;> rfl

/-- The success summary (`logti`, line 146) is logged only on the path
that returns `true`. -/
lemma Configure_summary_only_on_ok (env : ConfigureEnv) (i o : Option MediaTrack) :
    (Configure env i o).logged_summary = true →
      (Configure env i o).outcome = ConfigureOutcome.ok := by
  simp only [Configure]
  (repeat' split) <;> simp_all

/-! ## C3 — timebase-scale validation -/

/-- C3 counterexample: with input timebase `1/48000` and output timebase
`0/1`, the scale factor `input/output` is infinite — not a well-defined
finite number — yet `isnan` is false, the validation passes, and (all
later construction succeeding) `Configure` returns success instead of
rejecting. -/
theorem Configure_accepts_infinite_scale :
    ¬specScaleWellDefinedFinite track48k.timebase trackZeroTb.timebase ∧
    scaleNum track48k.timebase trackZeroTb.timebase ≠ 0 ∧
    scaleIsNaN track48k.timebase trackZeroTb.timebase = false ∧
    (Configure allOkEnv (some track48k) (some trackZeroTb)).outcome =
      ConfigureOutcome.ok := by
  decide

/-- C3 (amended): the validation rejects exactly a NaN scale factor —
both cross products of the two timebases zero, i.e. `0/0`.  A NaN scale
always makes `Configure` fail; with every external construction step
succeeding, `Configure` fails exactly when the scale is NaN — in
particular an infinite (nonzero over zero) scale passes the validation,
contrary to the original claim's "or infinite/undefined". -/
theorem Configure_timebase_validation_rejects_exactly_nan (env : ConfigureEnv)
    (it ot : MediaTrack)
    (halloc : (env.graph_alloc_ok && env.inputs_ok && env.outputs_ok) = true) :
    (scaleIsNaN it.timebase ot.timebase = true →
      (Configure env (some it) (some ot)).outcome = ConfigureOutcome.fail) ∧
    ((Configure allOkEnv (some it) (some ot)).outcome = ConfigureOutcome.fail ↔
      scaleIsNaN it.timebase ot.timebase = true) := by
  constructor
  · intro hnan
    simp [Configure, halloc, hnan]
  · constructor
    · intro hfail
      by_contra hnan
      have hnan2 : scaleIsNaN it.timebase ot.timebase = false := bool_ne_true hnan
      simp [Configure, allOkEnv, hnan2] at hfail
    · intro hnan
      simp [Configure, allOkEnv, hnan]

/-- Witness for C3's amended theorem at a concrete input: the `0/1`
timebase against itself gives a `0/0` (NaN) scale and `Configure`
fails. -/
theorem Configure_timebase_validation_rejects_exactly_nan_witness :
    ((allOkEnv.graph_alloc_ok && allOkEnv.inputs_ok && allOkEnv.outputs_ok) = true) ∧
    ((scaleIsNaN trackZeroTb.timebase trackZeroTb.timebase = true →
       (Configure allOkEnv (some trackZeroTb) (some trackZeroTb)).outcome =
         ConfigureOutcome.fail) ∧
     ((Configure allOkEnv (some trackZeroTb) (some trackZeroTb)).outcome =
         ConfigureOutcome.fail ↔
       scaleIsNaN trackZeroTb.timebase trackZeroTb.timebase = true)) :=
  ⟨by decide,
   Configure_timebase_validation_rejects_exactly_nan allOkEnv trackZeroTb
     trackZeroTb (by decide)⟩

/-! ## C4 — null descriptors -/

/-- C4 counterexample: a call with a null input descriptor does not
return a configuration error — it dereferences the null descriptor at the
timebase read (line 65), there being no null check in `Configure`. -/
theorem Configure_null_descriptor_not_rejected :
    (Configure allOkEnv none (some track48k)).outcome =
      ConfigureOutcome.nullDeref ∧
    ConfigureOutcome.nullDeref ≠ ConfigureOutcome.fail := by
  decide

/-- C4 (amended): `Configure` performs no null check on the descriptors.
Whenever the allocation check of line 56 passes, a call with a null input
or output descriptor reaches the timebase reads (lines 65–66) and
dereferences the null descriptor — undefined behavior — instead of
returning failure; only an allocation failure makes `Configure` return
failure before any descriptor field is read. -/
theorem Configure_null_descriptor_faults (env : ConfigureEnv)
    (input output : Option MediaTrack)
    (hnull : input = none ∨ output = none) :
    (Configure env input output).outcome =
      (if (env.graph_alloc_ok && env.inputs_ok && env.outputs_ok) = true
        then ConfigureOutcome.nullDeref else ConfigureOutcome.fail) := by
  by_cases halloc : (env.graph_alloc_ok && env.inputs_ok && env.outputs_ok) = true
  · rcases hnull with h | h
    · subst h
      cases output with
      | none => simp [Configure, halloc]
      | some ot => simp [Configure, halloc]
    · subst h
      cases input with
      | none => simp [Configure, halloc]
      | some it => simp [Configure, halloc]
  · have halloc2 : (env.graph_alloc_ok && env.inputs_ok && env.outputs_ok) = false :=
      bool_ne_true halloc
    simp [Configure, halloc2]

/-- Witness for C4's amended theorem: null input descriptor, healthy
allocations. -/
theorem Configure_null_descriptor_faults_witness :
    ((none : Option MediaTrack) = none ∨ (some track48k = none)) ∧
    (Configure allOkEnv none (some track48k)).outcome =
      (if (allOkEnv.graph_alloc_ok && allOkEnv.inputs_ok && allOkEnv.outputs_ok) = true
        then ConfigureOutcome.nullDeref else ConfigureOutcome.fail) :=
  ⟨Or.inl rfl,
   Configure_null_descriptor_faults allOkEnv none (some track48k) (Or.inl rfl)⟩

/-! ## C6 — failure paths do not release resources before returning -/

/-- C6 counterexample: `Configure` failing on a NaN timebase after the
graph was allocated returns failure with the graph still allocated and
not freed before the return — the partially-built resources are *not*
released before `Configure` returns. -/
theorem Configure_failure_retains_graph :
    (Configure allOkEnv (some trackZeroTb) (some trackZeroTb)).outcome =
      ConfigureOutcome.fail ∧
    (Configure allOkEnv (some trackZeroTb) (some trackZeroTb)).graph_allocated =
      true ∧
    (Configure allOkEnv (some trackZeroTb) (some trackZeroTb)).graph_freed_before_return =
      false := by
  decide

/-- C6 (amended): on any failure, `Configure` aborts the whole
configuration and reports failure to the caller, but releases nothing
before returning: the partially-built graph stays in the member pointer
(`graph_freed_before_return` is false on every path), no success summary
is logged (the stage is not presented as usable), and the resources are
released later, by the destructor. -/
theorem Configure_failure_aborts_without_release (env : ConfigureEnv)
    (input output : Option MediaTrack)
    (hfail : (Configure env input output).outcome = ConfigureOutcome.fail) :
    (Configure env input output).graph_freed_before_return = false ∧
    (Configure env input output).logged_summary = false ∧
    ∀ r : ResourceState, (destructorRelease r).graph_allocated = false := by
  refine ⟨Configure_never_frees env input output, ?_, fun _ => rfl⟩
  cases hsum : (Configure env input output).logged_summary
  · rfl
  · have hok := Configure_summary_only_on_ok env input output hsum
    rw [hok] at hfail
    exact absurd hfail (by decide)

/-- Witness for C6's amended theorem: the NaN-timebase failure. -/
theorem Configure_failure_aborts_without_release_witness :
    ((Configure allOkEnv (some trackZeroTb) (some trackZeroTb)).outcome =
      ConfigureOutcome.fail) ∧
    ((Configure allOkEnv (some trackZeroTb) (some trackZeroTb)).graph_freed_before_return =
      false ∧
     (Configure allOkEnv (some trackZeroTb) (some trackZeroTb)).logged_summary =
      false ∧
     ∀ r : ResourceState, (destructorRelease r).graph_allocated = false) :=
  ⟨by decide,
   Configure_failure_aborts_without_release allOkEnv (some trackZeroTb)
     (some trackZeroTb) (by decide)⟩

/-- Witness for C7 at a concrete input: a conversion failure on the first
of two queued frames; the second is never processed. -/
theorem FilterThread_input_conv_failure_fatal_witness :
    convFailEnv.conv_ok = false ∧
    FilterThread true avFrameDefaults 0
        [(⟨100, 4096⟩, convFailEnv), (⟨200, 4096⟩, simpleFeedEnv)] =
      { delivered := [], logs := [LogEvent.inputConvFail],
        fates := [Fate.discardedLogged], scratch := avFrameDefaults } :=
  ⟨by decide,
   FilterThread_input_conv_failure_fatal true avFrameDefaults 0
     ⟨100, 4096⟩ convFailEnv [(⟨200, 4096⟩, simpleFeedEnv)] (by decide)⟩


/-! ## C5 — frame accounting across the whole lifecycle -/

/-- Every fate the worker assigns to a dequeued frame is "fed" or
"discarded with a logged error". -/
lemma FilterThread_fates_fed_or_logged (handler : Bool)
    (frames : List (MediaFrame × FrameEnv)) :
    ∀ (scratch : AVFrameFields) (i : Nat),
      ((FilterThread handler scratch i frames).fates.all
        (fun fate => fate == Fate.fed || fate == Fate.discardedLogged)) = true := by
  induction frames with
  | nil => intro scratch i; simp [FilterThread]
  | cons fe rest ih =>
    intro scratch i
    obtain ⟨f, e⟩ := fe
    by_cases hc : e.conv_ok = true
    · by_cases hf : e.feed_ret < 0
      · rw [FilterThread_cons_feedFail handler scratch i f e rest hc hf]
        simp [ih]
      · rw [FilterThread_cons_fed handler scratch i f e rest hc hf]
        simp [ih]
    · rw [FilterThread_cons_convFail handler scratch i f e rest (bool_ne_true hc)]
      simp

/-- Each discard is matched by at least one log record of the run. -/
lemma FilterThread_discards_are_logged (handler : Bool)
    (frames : List (MediaFrame × FrameEnv)) :
    ∀ (scratch : AVFrameFields) (i : Nat),
      (FilterThread handler scratch i frames).fates.count Fate.discardedLogged ≤
        (FilterThread handler scratch i frames).logs.length := by
  induction frames with
  | nil => intro scratch i; simp [FilterThread]
  | cons fe rest ih =>
    intro scratch i
    obtain ⟨f, e⟩ := fe
    by_cases hc : e.conv_ok = true
    · by_cases hf : e.feed_ret < 0
      · rw [FilterThread_cons_feedFail handler scratch i f e rest hc hf]
        simp [List.count_cons]
        have := ih scratch (i + 1)
        omega
      · rw [FilterThread_cons_fed handler scratch i f e rest hc hf]
        simp only [List.count_cons, List.length_append]
        have h1 := ih (drainScratch scratch e.produced) (i + 1)
        have h2 : (Fate.fed == Fate.discardedLogged) = false := rfl
        simp [h2]
        omega
    · rw [FilterThread_cons_convFail handler scratch i f e rest (bool_ne_true hc)]
      simp

/-- C5 counterexample: a frame enqueued but never dequeued (the queue is
stopped before the worker pulls it — e.g. `Stop` or destruction while it
is still queued) is cleared by the destructor silently: its fate is
neither "consumed by the pipeline" nor "discarded with a logged error",
and the worker run emitted no log for it. -/
theorem enqueued_frame_dropped_silently :
    stageFates true [(⟨100, 4096⟩, simpleFeedEnv)] 0 = [Fate.clearedSilently] ∧
    Fate.clearedSilently ≠ Fate.fed ∧
    Fate.clearedSilently ≠ Fate.discardedLogged ∧
    (FilterThread true avFrameDefaults 0
      (([(⟨100, 4096⟩, simpleFeedEnv)] :
        List (MediaFrame × FrameEnv)).take 0)).logs = [] := by
  decide

/-- C5 (amended): every frame the worker *dequeues* is either fed to the
conversion pipeline or discarded together with a logged error (each
discard has a matching log record); but a frame still queued when the
stage stops or is destroyed is cleared by the destructor without any log
record.  The stage's whole-lifecycle accounting is exactly: the dequeued
prefix fed-or-logged, the remainder cleared silently. -/
theorem stage_frame_accounting (handler : Bool)
    (frames : List (MediaFrame × FrameEnv)) (k : Nat) :
    ((FilterThread handler avFrameDefaults 0 (frames.take k)).fates.all
      (fun fate => fate == Fate.fed || fate == Fate.discardedLogged)) = true ∧
    (FilterThread handler avFrameDefaults 0 (frames.take k)).fates.count
        Fate.discardedLogged ≤
      (FilterThread handler avFrameDefaults 0 (frames.take k)).logs.length ∧
    stageFates handler frames k =
      (FilterThread handler avFrameDefaults 0 (frames.take k)).fates ++
        List.replicate
          (frames.length -
            (FilterThread handler avFrameDefaults 0 (frames.take k)).fates.length)
          Fate.clearedSilently :=
  ⟨FilterThread_fates_fed_or_logged handler (frames.take k) avFrameDefaults 0,
   FilterThread_discards_are_logged handler (frames.take k) avFrameDefaults 0,
   rfl⟩

/-! ## C9 — the feed-failure diagnostic logs the wrong frame -/

/-- Whether a log record that is a feed-failure diagnostic carries the
scratch frame's default (unref'd) field values. -/
def feedFailLogUsesDefaults : LogEvent → Bool
  | LogEvent.feedFail s _ => s == avFrameDefaults
  | _ => true

/-- Drain-loop logs contain no feed-failure record at all. -/
lemma drainLoop_logs_no_feedFail (handler : Bool)
    (produced : List (AVFrameFields × Option MediaFrame)) (ending : DrainEnd) :
    ((drainLoop handler produced ending).2.all feedFailLogUsesDefaults) = true := by
  induction produced with
  | nil => cases ending <;> simp [drainLoop, feedFailLogUsesDefaults]
  | cons pc rest ih =>
    obtain ⟨fl, conv⟩ := pc
    cases conv <;> simp [drainLoop, feedFailLogUsesDefaults, ih]

/-- The scratch frame `_frame` is at its unref'd defaults at every feed:
starting from the allocation defaults, each drain leaves it at the
defaults again, so every feed-failure log carries the default fields. -/
lemma FilterThread_feedFail_logs_defaults (handler : Bool)
    (frames : List (MediaFrame × FrameEnv)) :
    ∀ (i : Nat),
      ((FilterThread handler avFrameDefaults i frames).logs.all
        feedFailLogUsesDefaults) = true := by
  induction frames with
  | nil => intro i; simp [FilterThread]
  | cons fe rest ih =>
    intro i
    obtain ⟨f, e⟩ := fe
    by_cases hc : e.conv_ok = true
    · by_cases hf : e.feed_ret < 0
      · rw [FilterThread_cons_feedFail handler avFrameDefaults i f e rest hc hf]
        simp [feedFailLogUsesDefaults, ih]
      · rw [FilterThread_cons_fed handler avFrameDefaults i f e rest hc hf]
        have hscr : drainScratch avFrameDefaults e.produced = avFrameDefaults := by
          simp [drainScratch]
        rw [hscr]
        simp [List.all_append, drainLoop_logs_no_feedFail, ih]
    · rw [FilterThread_cons_convFail handler avFrameDefaults i f e rest (bool_ne_true hc)]
      simp [feedFailLogUsesDefaults]

/-- C9 (code evaluated at the failing input): the feed-failure diagnostic
at line 208 interpolates the member scratch frame `_frame` — which is
always in its unref'd default state at feed time (first conjunct, for
every run) — instead of the fed `av_frame`.  Concretely: feeding a frame
with pts 1000 while `av_buffersrc_add_frame_flags` returns −22 logs
`pts = AV_NOPTS_VALUE`, zeroed geometry and the queue depth, not the fed
frame's pts 1000; and the worker then continues with the next frame
(which is fed normally), as the claim's non-fatality part says. -/
theorem feed_failure_diagnostic_logs_scratch_frame
    (frames : List (MediaFrame × FrameEnv)) (i : Nat) :
    ((FilterThread true avFrameDefaults i frames).logs.all
      feedFailLogUsesDefaults) = true ∧
    (FilterThread true avFrameDefaults 0
        [(⟨1000, 4096⟩, feedFailEnv), (⟨2000, 4096⟩, simpleFeedEnv)]).logs =
      [LogEvent.feedFail avFrameDefaults 5] ∧
    avFrameDefaults.pts = AV_NOPTS_VALUE ∧
    ¬avFrameDefaults.pts = 1000 ∧
    (FilterThread true avFrameDefaults 0
        [(⟨1000, 4096⟩, feedFailEnv), (⟨2000, 4096⟩, simpleFeedEnv)]).fates =
      [Fate.discardedLogged, Fate.fed] :=
  ⟨FilterThread_feedFail_logs_defaults true frames i,
   by decide, by decide, by decide, by decide⟩

/-! ## C8 — `SendBuffer` always enqueues and returns 0 -/

/-- C8: `SendBuffer` unconditionally appends the frame to the input queue
and returns the success code 0 — there is no branch on queue depth, no
synchronous error path and no blocking; the constructor sets the queue's
soft threshold to 100, which nothing in `SendBuffer` consults. -/
theorem SendBuffer_always_returns_zero (s : StageState) (buffer : MediaFrame) :
    (SendBuffer s buffer).2 = 0 ∧
    (SendBuffer s buffer).1.input_buffer.items =
      s.input_buffer.items ++ [buffer] ∧
    initialInputBuffer.threshold = 100 :=
  ⟨rfl, rfl, rfl⟩

/-! ## C10 — `SendBuffer` after `Stop` -/

/-- C10: from any stage state — configured or not, started or not —
calling `SendBuffer` after `Stop` still appends the frame and returns 0
with no error indication; but the stopped queue answers every dequeue
with "no value", so the worker (which obtains frames only by dequeuing,
and has exited once the kill flag is set and the queue is stopped) never
receives the frame and it is never fed to the conversion pipeline. -/
theorem SendBuffer_after_Stop_accepted_never_fed (s : StageState)
    (buffer : MediaFrame) :
    (SendBuffer (Stop s) buffer).2 = 0 ∧
    (SendBuffer (Stop s) buffer).1.input_buffer.items =
      s.input_buffer.items ++ [buffer] ∧
    ((SendBuffer (Stop s) buffer).1.input_buffer.dequeue).1 = none ∧
    (Stop s).kill_flag = true := by
  refine ⟨rfl, rfl, ?_, rfl⟩
  simp [SendBuffer, Stop, InputBuffer.enqueue, InputBuffer.stop,
    InputBuffer.dequeue]
